import Mathlib

/-!
# sdvi: the provisioning pipeline of `cmd/deploy.go` and the inventory text of `cmd/configure.go`

A shallow embedding of the Go code.  Effects are made explicit as a `World`
that is threaded through every function:

* the process environment (`os.Setenv` / `os.Getenv`),
* the log of calls handed to `runGOVC`, oldest first, each with the status it returned,
* the chunks written to standard output and to standard error.

The virtualization control plane behind `cli.Run` is a parameter: a `Provider`
maps the calls made so far and the argument list of the present call to a
status.  A provider that ignores the history is a plain function from argument
list to status.

Go's `int` fields are `Int`; nothing in the code does arithmetic on them, they
are only compared with `0` and printed with `%d`.  A Go `error` is the text of
its message, `nil` is `none`.  Servers are the non-nil `*Server` values of the
unmarshalled list.
-/

namespace Sdvi

/-! ## Data model (`cmd/deploy.go`) -/

/-- The `VCenter` struct. -/
structure VCenter where
  Url : String
  Username : String
  Password : String
  Template : String
  Datastore : String
  Network : String
  ResourcePool : String
deriving DecidableEq

/-- The `Server` struct. -/
structure Server where
  Name : String
  Cpu : Int
  MemoryMB : Int
  IPAddress : String
  Netmask : String
  Gateway : String
  AppDiskGB : Int
deriving DecidableEq

/-- One invocation of `runGOVC`: the arguments passed and the status returned. -/
structure Call where
  args : List String
  status : Int
deriving DecidableEq

/-- The effects the code can have. -/
structure World where
  env : List (String × String)
  calls : List Call
  stdout : List String
  stderr : List String
deriving DecidableEq

/-- The control plane behind `cli.Run`: calls made so far, present arguments, status. -/
abbrev Provider := List Call → List String → Int

/-- A provider whose answer depends on the argument list alone. -/
def Provider.ofFun (f : List String → Int) : Provider := fun _ args => f args

/-- An action of the embedding: a Go function returning `error`. -/
abbrev Action := World → Option String × World

/-! ## Library behaviour the code relies on -/

/-- The verb `%d` of `fmt` applied to an `int`: decimal, with a minus sign when negative. -/
def fmtD (n : Int) : String :=
  match n with
  | Int.ofNat m => Nat.repr m
  | Int.negSucc m => "-" ++ Nat.repr (m + 1)

/-- The call `os.Getenv`: the value of the variable, empty when it is not set. -/
def getenv (w : World) (key : String) : String :=
  match w.env.find? (fun kv => kv.1 == key) with
  | some kv => kv.2
  | none => ""

/-- The call `os.Setenv`: fails on a value holding a NUL byte (the keys used are all valid). -/
def setenv (key value : String) (w : World) : Option String × World :=
  if value.data.contains (Char.ofNat 0) then
    (some ("setenv: invalid argument"), w)
  else
    (none, { w with env := (key, value) :: w.env.filter (fun kv => !(kv.1 == key)) })

/-- The call `fmt.Println(text)`. -/
def println (text : String) (w : World) : World :=
  { w with stdout := w.stdout ++ [text ++ "\n"] }

/-- The call `fmt.Fprintln(os.Stderr, err)`. -/
def eprintln (text : String) (w : World) : World :=
  { w with stderr := w.stderr ++ [text ++ "\n"] }

/-! ## `cmd/deploy.go` -/

/-- The function `runGOVC`: hands the arguments to the provider and logs the call. -/
def runGOVC (p : Provider) (args : List String) (w : World) : Int × World :=
  let rtn := p w.calls args
  (rtn, { w with calls := w.calls ++ [{ args := args, status := rtn }] })

/-- The argument list built by `cloneVM`. -/
def vmCfg (s : Server) (w : World) : List String :=
  [ "vm.clone",
    "-vm", getenv w "GOVC_TEMPLATE",
    "-on=false",
    "-c=" ++ fmtD s.Cpu,
    "-m=" ++ fmtD s.MemoryMB,
    "-net=" ++ getenv w "GOVC_NETWORK",
    "-net.adapter=vmxnet3",
    s.Name ]

/-- The function `cloneVM`. -/
def cloneVM (p : Provider) (s : Server) : Action := fun w =>
  let r := runGOVC p (vmCfg s w) w
  if r.1 ≠ 0 then
    (some ("failed to create virtual machine " ++ s.Name), r.2)
  else
    (none, r.2)

/-- The argument list built by `createVMDisk`. -/
def diskCfg (s : Server) : List String :=
  [ "vm.disk.create",
    "-vm", s.Name,
    "-name", s.Name ++ "/" ++ s.Name ++ "_001",
    "-size", fmtD s.AppDiskGB ++ "G",
    "-thick=true" ]

/-- The function `createVMDisk`. -/
def createVMDisk (p : Provider) (s : Server) : Action := fun w =>
  if s.AppDiskGB = 0 then
    (some "appDisk not specified in configuration file", w)
  else
    let r := runGOVC p (diskCfg s) w
    if r.1 ≠ 0 then
      (some ("failed to create disk for virtual machine " ++ s.Name), r.2)
    else
      (none, r.2)

/-- The argument list built by `setNicStartConnected`. -/
def connectCfg (s : Server) : List String :=
  [ "device.connect", "-vm", s.Name, "ethernet-0" ]

/-- The function `setNicStartConnected`. -/
def setNicStartConnected (p : Provider) (s : Server) : Action := fun w =>
  let r := runGOVC p (connectCfg s) w
  if r.1 ≠ 0 then
    (some ("failed to set vmxnet3 adapter to start connected on virtual machine " ++ s.Name), r.2)
  else
    (none, r.2)

/-- The argument list built by `setIPAddress`. -/
def netCfg (s : Server) : List String :=
  [ "vm.customize",
    "-vm", s.Name,
    "-ip", s.IPAddress,
    "-netmask", s.Netmask,
    "-gateway", s.Gateway ]

/-- The function `setIPAddress`. -/
def setIPAddress (p : Provider) (s : Server) : Action := fun w =>
  let r := runGOVC p (netCfg s) w
  if r.1 ≠ 0 then
    (some ("failed to set ip address of " ++ s.Name), r.2)
  else
    (none, r.2)

/-- The argument list built by `powerOn`. -/
def pwrCmd (s : Server) : List String :=
  [ "vm.power", "-on", s.Name ]

/-- The function `powerOn`. -/
def powerOn (p : Provider) (s : Server) : Action := fun w =>
  let r := runGOVC p (pwrCmd s) w
  if r.1 ≠ 0 then
    (some ("failed to power on " ++ s.Name), r.2)
  else
    (none, r.2)

/-- The function `deployPackage`: five steps, each returning at once on an error. -/
def deployPackage (p : Provider) (s : Server) : Action := fun w =>
  match cloneVM p s w with
  | (some err, w1) => (some err, w1)
  | (none, w1) =>
    match createVMDisk p s w1 with
    | (some err, w2) => (some err, w2)
    | (none, w2) =>
      match setNicStartConnected p s w2 with
      | (some err, w3) => (some err, w3)
      | (none, w3) =>
        match setIPAddress p s w3 with
        | (some err, w4) => (some err, w4)
        | (none, w4) =>
          match powerOn p s w4 with
          | (some err, w5) => (some err, w5)
          | (none, w5) => (none, w5)

/-- A second or third call of `deployPackage` in the loop body: an error is printed to
standard error and the loop goes on. -/
def deployPackageLogged (p : Provider) (s : Server) (w : World) : World :=
  match deployPackage p s w with
  | (some err, w1) => eprintln err w1
  | (none, w1) => w1

/-- The `for _, srv := range srvs` loop of `deployCmd.Run`.  The result is `some c` when
the loop ended the process with `os.Exit(c)` and `none` when it ran to its end. -/
def deployLoop (p : Provider) : List Server → World → Option Int × World
  | [], w => (none, w)
  | srv :: rest, w =>
    match deployPackage p srv w with
    | (some err, w1) => (some 1, eprintln err w1)
    | (none, w1) =>
      let w2 := deployPackageLogged p srv w1
      let w3 := deployPackageLogged p srv w2
      deployLoop p rest w3

/-- The function `setupEnvironment`, given the result of unmarshalling the key `vcenter`.
The map is ranged over in an order Go leaves open; the keys are distinct, so the
environment reached on success does not depend on it, and on failure the caller exits. -/
def setupEnvironment (vc : Except String VCenter) (w : World) : Option String × World :=
  match vc with
  | .error e => (some e, w)
  | .ok vc =>
    let envMap : List (String × String) :=
      [ ("GOVC_URL", vc.Url),
        ("GOVC_USERNAME", vc.Username),
        ("GOVC_PASSWORD", vc.Password),
        ("GOVC_TEMPLATE", vc.Template),
        ("GOVC_DATASTORE", vc.Datastore),
        ("GOVC_NETWORK", vc.Network),
        ("GOVC_RESOURCE_POOL", vc.ResourcePool),
        ("GOVC_INSECURE", "true") ]
    envMap.foldl
      (fun acc kv =>
        match acc with
        | (some e, w1) => (some e, w1)
        | (none, w1) => setenv kv.1 kv.2 w1)
      (none, w)

/-- The body of `deployCmd.Run`, given the results of unmarshalling the keys `vcenter`
and `servers`. -/
def deployCmdRun (p : Provider) (vc : Except String VCenter)
    (srvs : Except String (List Server)) (w : World) : Option Int × World :=
  let w0 := println "Setting up environment variables..." w
  match setupEnvironment vc w0 with
  | (some err, w1) =>
    (some 1, { w1 with stderr := w1.stderr ++ ["failed to setup enviornment variables: " ++ err ++ "\n"] })
  | (none, w1) =>
    let w2 := println "Unmarshaling server structures..." w1
    match srvs with
    | .error err =>
      (some 1, { w2 with stderr := w2.stderr ++ ["failed to unmarshal servers: " ++ err ++ "\n"] })
    | .ok srvs => deployLoop p srvs w2

/-- Modelled from the spec: the caller of `deployCmd.Run` (the root command and `main`) is
not among the sources.  The exit contract knows the status 0 and a non-zero one;
`os.Exit(c)` ends the process with `c`, and a `Run` that returns, having no error result,
leaves it to end with 0. -/
def exitStatus (r : Option Int) : Int :=
  match r with
  | some c => c
  | none => 0

/-! ## `cmd/configure.go` -/

/-- The limit `fmt` puts on a width or precision taken from an argument (`tooLarge`). -/
def tooLarge (x : Int) : Bool :=
  decide (x > 1000000) || decide (x < -1000000)

/-- The padding `fmt` puts around a string for a given width: the width is compared with
the number of runes (code points) of the string, spaces go to the left, or to the right
when the minus flag is set. -/
def padString (wid : Nat) (minus : Bool) (s : String) : String :=
  let width := (wid : Int) - (s.length : Int)
  if wid = 0 ∨ width ≤ 0 then s
  else if minus then s ++ String.mk (List.replicate width.toNat ' ')
  else String.mk (List.replicate width.toNat ' ') ++ s

/-- The call `fmt.Sprintf("\n%*s:", wid, s)`: a width beyond the limit is dropped and
reported in the output as `%!(BADWIDTH)`, a negative one means its absolute value with
the minus flag. -/
def sprintfHostLine (wid : Int) (s : String) : String :=
  if tooLarge wid then "\n" ++ "%!(BADWIDTH)" ++ s ++ ":"
  else "\n" ++ padString wid.natAbs (decide (wid < 0)) s ++ ":"

/-- The builtin `len` on a string: its number of bytes (UTF-8). -/
def len (s : String) : Int :=
  (s.utf8ByteSize : Int)

/-- The first value of `ansInv` in `generateAnsibleInv`. -/
def inventoryHeader : String :=
  "---\nall:\n  children:\n    generated:\n      hosts:"

/-- The text `generateAnsibleInv` builds in `ansInv` from the unmarshalled servers and
hands to `ioutil.WriteFile`. -/
def generateAnsibleInv (servers : List Server) : String :=
  servers.foldl (fun ansInv srv => ansInv ++ sprintfHostLine (8 + len srv.Name) srv.Name)
    inventoryHeader

/-- The inventory text with every host indented by exactly eight spaces. -/
def inventoryIndentedBy8 (servers : List Server) : String :=
  servers.foldl (fun acc srv => acc ++ "\n" ++ "        " ++ srv.Name ++ ":") inventoryHeader

/-! ## Vocabulary of the statements -/

/-- The calls made between two worlds: what the later log holds beyond the earlier one. -/
def issued (w w' : World) : List Call :=
  w'.calls.drop w.calls.length

/-- The command of a call: the first argument handed to `runGOVC`. -/
def Call.cmd (c : Call) : String :=
  c.args.headD ""

/-- The commands of the five steps, in the order `deployPackage` runs them. -/
def stepCommands : List String :=
  ["vm.clone", "vm.disk.create", "device.connect", "vm.customize", "vm.power"]

/-- The five steps of `deployPackage` for one server, in source order. -/
def pipeline (p : Provider) (s : Server) : List Action :=
  [cloneVM p s, createVMDisk p s, setNicStartConnected p s, setIPAddress p s, powerOn p s]

/-- Runs the given steps one after the other while each returns `nil`; the world reached
when all of them did, `none` as soon as one returns an error. -/
def allSucceed : List Action → World → Option World
  | [], w => some w
  | step :: rest, w =>
    match step w with
    | (some _, _) => none
    | (none, w1) => allSucceed rest w1

/-- A text occurs inside another one (as a contiguous run of characters). -/
def occursIn (needle hay : String) : Prop :=
  needle.data <:+: hay.data

instance (needle hay : String) : Decidable (occursIn needle hay) :=
  inferInstanceAs (Decidable (needle.data <:+: hay.data))

/-- Runs the given steps in order and returns at the first error. -/
def runSteps : List Action → Action
  | [], w => (none, w)
  | step :: rest, w =>
    match step w with
    | (some err, w1) => (some err, w1)
    | (none, w1) => runSteps rest w1

/-- A step only appends calls to the log, and every call it appends carries the command. -/
def Emits (f : Action) (cmd : String) : Prop :=
  ∀ w, ∃ new, (f w).2.calls = w.calls ++ new ∧ ∀ c ∈ new, c.cmd = cmd

/-- A server was attempted between two worlds: a `vm.clone` call with its arguments, the
first thing `deployPackage` does, was issued. -/
def attempted (w w' : World) (s : Server) : Prop :=
  ∃ c ∈ issued w w', c.args = vmCfg s w

instance (w w' : World) (s : Server) : Decidable (attempted w w' s) :=
  inferInstanceAs (Decidable (∃ c ∈ issued w w', c.args = vmCfg s w))

/-- The later world has the environment of the earlier one and a log that continues it. -/
def Extends (w w' : World) : Prop :=
  w'.env = w.env ∧ ∃ new, w'.calls = w.calls ++ new

/-- A step changes nothing but the log of calls, which it continues. -/
def Frames (f : Action) : Prop :=
  ∀ w, ∃ new, (f w).2 = { w with calls := w.calls ++ new }

/-- Reads the failed step (0 to 4, in the order of `pipeline`) off an error text, looking
at the text alone. -/
def failedStep (e : String) : Option Nat :=
  if "failed to create virtual machine ".data <+: e.data then some 0
  else if e = "appDisk not specified in configuration file" then some 1
  else if "failed to create disk for virtual machine ".data <+: e.data then some 1
  else if "failed to set vmxnet3 adapter to start connected on virtual machine ".data <+: e.data
    then some 2
  else if "failed to set ip address of ".data <+: e.data then some 3
  else if "failed to power on ".data <+: e.data then some 4
  else none

/-! ## Sample inputs -/

/-- A world with the two variables `cloneVM` reads set and nothing done yet. -/
def sampleWorld : World :=
  { env := [("GOVC_TEMPLATE", "rhel8"), ("GOVC_NETWORK", "VM Network")],
    calls := [], stdout := [], stderr := [] }

/-- A server descriptor with the given name and application-disk size. -/
def sampleServer (name : String) (disk : Int) : Server :=
  { Name := name, Cpu := 2, MemoryMB := 4096, IPAddress := "10.0.0.11",
    Netmask := "255.255.255.0", Gateway := "10.0.0.1", AppDiskGB := disk }

/-- The provider that succeeds on every call. -/
def okProvider : Provider :=
  Provider.ofFun (fun _ => 0)

/-- The provider that fails exactly the calls of one command. -/
def failOn (cmd : String) : Provider :=
  Provider.ofFun (fun args => if args.headD "" = cmd then 1 else 0)

/-- The provider that fails exactly the calls whose last argument is the given text. -/
def failFor (name : String) : Provider :=
  Provider.ofFun (fun args => if args.getLast? = some name then 1 else 0)

/-- The provider that refuses to clone a virtual machine it has cloned before and
succeeds on everything else. -/
def noDuplicateClone : Provider := fun history args =>
  if args.headD "" = "vm.clone" ∧ history.any (fun c => c.args == args && c.status == 0) then 1
  else 0

/-- The world `deployPackage` reaches for `db01` when clone, disk and adapter succeeded. -/
def db01BeforeNetwork : World :=
  (setNicStartConnected (failOn "vm.customize") (sampleServer "db01" 100)
    (createVMDisk (failOn "vm.customize") (sampleServer "db01" 100)
      (cloneVM (failOn "vm.customize") (sampleServer "db01" 100) sampleWorld).2).2).2

/-! ## Basic facts about the steps -/

theorem issued_append (w w' : World) (new : List Call) (h : w'.calls = w.calls ++ new) :
    issued w w' = new := by
  simp [issued, h]

theorem issued_self (w : World) : issued w w = [] := by
  simp [issued]

theorem runGOVC_fst (p : Provider) (args : List String) (w : World) :
    (runGOVC p args w).1 = p w.calls args := rfl

theorem runGOVC_snd (p : Provider) (args : List String) (w : World) :
    (runGOVC p args w).2 =
      { w with calls := w.calls ++ [{ args := args, status := p w.calls args }] } := rfl

/-! ## The single steps -/

/-- C8: `cloneVM` hands the provider exactly one call, with the arguments
`vm.clone -vm T -on=false -c=<Cpu> -m=<MemoryMB> -net=<N> -net.adapter=vmxnet3 Name`
for the template `T` and the network `N` found in the environment, and it returns an
error exactly when the status of that call is not zero. -/
theorem cloneVM_one_call (p : Provider) (s : Server) (w : World) (T N : String)
    (hT : getenv w "GOVC_TEMPLATE" = T) (hN : getenv w "GOVC_NETWORK" = N) :
    (cloneVM p s w).2.calls = w.calls ++ issued w (cloneVM p s w).2 ∧
    issued w (cloneVM p s w).2 =
      [{ args := ["vm.clone", "-vm", T, "-on=false", "-c=" ++ fmtD s.Cpu,
                  "-m=" ++ fmtD s.MemoryMB, "-net=" ++ N, "-net.adapter=vmxnet3", s.Name],
         status := p w.calls
                 ["vm.clone", "-vm", T, "-on=false", "-c=" ++ fmtD s.Cpu,
                  "-m=" ++ fmtD s.MemoryMB, "-net=" ++ N, "-net.adapter=vmxnet3", s.Name] }] ∧
    ((cloneVM p s w).1 ≠ none ↔
      p w.calls ["vm.clone", "-vm", T, "-on=false", "-c=" ++ fmtD s.Cpu,
                 "-m=" ++ fmtD s.MemoryMB, "-net=" ++ N, "-net.adapter=vmxnet3", s.Name] ≠ 0) := by
  subst hT hN
  by_cases h : p w.calls (vmCfg s w) = 0
  · simp only [vmCfg] at h
    simp [cloneVM, runGOVC, issued, vmCfg, h]
  · simp only [vmCfg] at h
    simp [cloneVM, runGOVC, issued, vmCfg, h]

theorem cloneVM_one_call_witness :
    (cloneVM okProvider (sampleServer "web01" 50) sampleWorld).2.calls =
      sampleWorld.calls ++ issued sampleWorld (cloneVM okProvider (sampleServer "web01" 50) sampleWorld).2 ∧
    issued sampleWorld (cloneVM okProvider (sampleServer "web01" 50) sampleWorld).2 =
      [{ args := ["vm.clone", "-vm", "rhel8", "-on=false", "-c=" ++ fmtD 2,
                  "-m=" ++ fmtD 4096, "-net=" ++ "VM Network", "-net.adapter=vmxnet3", "web01"],
         status := okProvider sampleWorld.calls
                 ["vm.clone", "-vm", "rhel8", "-on=false", "-c=" ++ fmtD 2,
                  "-m=" ++ fmtD 4096, "-net=" ++ "VM Network", "-net.adapter=vmxnet3", "web01"] }] ∧
    ((cloneVM okProvider (sampleServer "web01" 50) sampleWorld).1 ≠ none ↔
      okProvider sampleWorld.calls ["vm.clone", "-vm", "rhel8", "-on=false", "-c=" ++ fmtD 2,
                 "-m=" ++ fmtD 4096, "-net=" ++ "VM Network", "-net.adapter=vmxnet3", "web01"] ≠ 0) :=
  cloneVM_one_call okProvider (sampleServer "web01" 50) sampleWorld "rhel8" "VM Network"
    (by decide) (by decide)

theorem fmtD_of_nonneg (n : Int) (h : 0 ≤ n) : fmtD n = Nat.repr n.toNat := by
  cases n with
  | ofNat m => rfl
  | negSucc m => exact absurd h (by simp [Int.negSucc_lt_zero])

/-- C9: for a positive application-disk size `createVMDisk` hands the provider exactly one
call, `vm.disk.create -vm Name -name Name/Name_001 -size <AppDiskGB>G -thick=true` with the
size in decimal; it returns an error exactly when the status of that call is not zero; and
the disk name passed after `-name` is the same for any two servers of the same name. -/
theorem createVMDisk_one_call (p : Provider) (s : Server) (w : World) (h : 0 < s.AppDiskGB) :
    (createVMDisk p s w).2.calls = w.calls ++ issued w (createVMDisk p s w).2 ∧
    issued w (createVMDisk p s w).2 =
      [{ args := ["vm.disk.create", "-vm", s.Name, "-name", s.Name ++ "/" ++ s.Name ++ "_001",
                  "-size", Nat.repr s.AppDiskGB.toNat ++ "G", "-thick=true"],
         status := p w.calls
                 ["vm.disk.create", "-vm", s.Name, "-name", s.Name ++ "/" ++ s.Name ++ "_001",
                  "-size", Nat.repr s.AppDiskGB.toNat ++ "G", "-thick=true"] }] ∧
    ((createVMDisk p s w).1 ≠ none ↔
      p w.calls ["vm.disk.create", "-vm", s.Name, "-name", s.Name ++ "/" ++ s.Name ++ "_001",
                 "-size", Nat.repr s.AppDiskGB.toNat ++ "G", "-thick=true"] ≠ 0) ∧
    (∀ (q : Provider) (t : Server) (v : World), 0 < t.AppDiskGB → t.Name = s.Name →
      (issued v (createVMDisk q t v).2).map (fun c => c.args.get? 4) =
        (issued w (createVMDisk p s w).2).map (fun c => c.args.get? 4)) := by
  have hne : ∀ t : Server, 0 < t.AppDiskGB → t.AppDiskGB ≠ 0 := fun t ht => by omega
  have hfmt : ∀ t : Server, 0 < t.AppDiskGB → fmtD t.AppDiskGB = Nat.repr t.AppDiskGB.toNat :=
    fun t ht => fmtD_of_nonneg _ (by omega)
  have key : ∀ (q : Provider) (t : Server) (v : World), 0 < t.AppDiskGB →
      (createVMDisk q t v).2.calls = v.calls ++ [{ args := diskCfg t, status := q v.calls (diskCfg t) }] ∧
      ((createVMDisk q t v).1 ≠ none ↔ q v.calls (diskCfg t) ≠ 0) := by
    intro q t v ht
    by_cases hq : q v.calls (diskCfg t) = 0
    · simp [createVMDisk, runGOVC, hne t ht, hq]
    · simp [createVMDisk, runGOVC, hne t ht, hq]
  have hcfg : diskCfg s = ["vm.disk.create", "-vm", s.Name, "-name", s.Name ++ "/" ++ s.Name ++ "_001",
      "-size", Nat.repr s.AppDiskGB.toNat ++ "G", "-thick=true"] := by
    simp [diskCfg, hfmt s h]
  have hiss : ∀ (q : Provider) (t : Server) (v : World), 0 < t.AppDiskGB →
      issued v (createVMDisk q t v).2 = [{ args := diskCfg t, status := q v.calls (diskCfg t) }] :=
    fun q t v ht => issued_append _ _ _ (key q t v ht).1
  refine ⟨?_, ?_, ?_, ?_⟩
  · rw [hiss p s w h]; exact (key p s w h).1
  · rw [hiss p s w h, hcfg]
  · rw [← hcfg]; exact (key p s w h).2
  · intro q t v ht hname
    rw [hiss q t v ht, hiss p s w h]
    simp [diskCfg, hname]

theorem createVMDisk_one_call_witness :
    (0 : Int) < (sampleServer "web01" 50).AppDiskGB ∧
    issued sampleWorld (createVMDisk okProvider (sampleServer "web01" 50) sampleWorld).2 =
      [{ args := ["vm.disk.create", "-vm", "web01", "-name", "web01/web01_001",
                  "-size", "50G", "-thick=true"],
         status := 0 }] :=
  ⟨by decide,
   (createVMDisk_one_call okProvider (sampleServer "web01" 50) sampleWorld (by decide)).2.1⟩

/-- C2 (as amended): when the application-disk size is exactly zero, which is what an
absent `appDisk` unmarshals to, `createVMDisk` returns the error
`appDisk not specified in configuration file` and leaves the world as it was: no call
reaches the provider. -/
theorem createVMDisk_zero_size (p : Provider) (s : Server) (w : World) (h : s.AppDiskGB = 0) :
    createVMDisk p s w = (some "appDisk not specified in configuration file", w) ∧
    issued w (createVMDisk p s w).2 = [] := by
  simp [createVMDisk, h, issued]

theorem createVMDisk_zero_size_witness :
    (sampleServer "web02" 0).AppDiskGB = 0 ∧
    createVMDisk (failOn "vm.disk.create") (sampleServer "web02" 0) sampleWorld =
      (some "appDisk not specified in configuration file", sampleWorld) ∧
    issued sampleWorld
      (createVMDisk (failOn "vm.disk.create") (sampleServer "web02" 0) sampleWorld).2 = [] :=
  ⟨by decide,
   createVMDisk_zero_size (failOn "vm.disk.create") (sampleServer "web02" 0) sampleWorld (by decide)⟩

/-- C2 fails as stated: with the negative size `-5` the guard `AppDiskGB == 0` does not
fire, the provider is called with `-size -5G`, and no error is returned. -/
theorem createVMDisk_negative_size_reaches_provider :
    (sampleServer "web02" (-5)).AppDiskGB ≤ 0 ∧
    (createVMDisk okProvider (sampleServer "web02" (-5)) sampleWorld).1 = none ∧
    issued sampleWorld (createVMDisk okProvider (sampleServer "web02" (-5)) sampleWorld).2 =
      [{ args := ["vm.disk.create", "-vm", "web02", "-name", "web02/web02_001",
                  "-size", "-5G", "-thick=true"],
         status := 0 }] := by
  decide

/-! ## The pipeline of one server -/

theorem deployPackage_eq_runSteps (p : Provider) (s : Server) (w : World) :
    deployPackage p s w = runSteps (pipeline p s) w := by
  simp only [deployPackage, pipeline, runSteps]

theorem allSucceed_append (pre rest : List Action) (w wk : World)
    (h : allSucceed pre w = some wk) : runSteps (pre ++ rest) w = runSteps rest wk := by
  induction pre generalizing w with
  | nil => simp [allSucceed] at h; simp [h]
  | cons f fs ih =>
    simp only [allSucceed] at h
    rcases hf : f w with ⟨_ | e, w1⟩
    · rw [hf] at h
      simp only [List.cons_append, runSteps, hf]
      exact ih w1 h
    · rw [hf] at h
      simp at h

theorem allSucceed_emits {steps : List Action} {cmds : List String}
    (h : List.Forall₂ Emits steps cmds) :
    ∀ w wk, allSucceed steps w = some wk →
      ∃ new, wk.calls = w.calls ++ new ∧ ∀ c ∈ new, c.cmd ∈ cmds := by
  induction h with
  | nil =>
    intro w wk hw
    simp [allSucceed] at hw
    exact ⟨[], by simp [hw]⟩
  | @cons f cmd fs cs hf _ ih =>
    intro w wk hw
    simp only [allSucceed] at hw
    rcases hfw : f w with ⟨_ | e, w1⟩
    · rw [hfw] at hw
      obtain ⟨new1, h1, hc1⟩ := hf w
      obtain ⟨new2, h2, hc2⟩ := ih w1 wk hw
      rw [hfw] at h1
      have h1' : w1.calls = w.calls ++ new1 := h1
      refine ⟨new1 ++ new2, by rw [h2, h1', List.append_assoc], ?_⟩
      intro c hc
      rcases List.mem_append.mp hc with hc | hc
      · simp [hc1 c hc]
      · exact List.mem_cons_of_mem _ (hc2 c hc)
    · rw [hfw] at hw
      simp at hw

theorem cloneVM_emits (p : Provider) (s : Server) : Emits (cloneVM p s) "vm.clone" := by
  intro w
  refine ⟨[{ args := vmCfg s w, status := p w.calls (vmCfg s w) }], ?_, ?_⟩
  · by_cases h : p w.calls (vmCfg s w) = 0 <;> simp [cloneVM, runGOVC, h]
  · simp [Call.cmd, vmCfg]

theorem createVMDisk_emits (p : Provider) (s : Server) :
    Emits (createVMDisk p s) "vm.disk.create" := by
  intro w
  by_cases hd : s.AppDiskGB = 0
  · exact ⟨[], by simp [createVMDisk, hd], by simp⟩
  · refine ⟨[{ args := diskCfg s, status := p w.calls (diskCfg s) }], ?_, ?_⟩
    · by_cases h : p w.calls (diskCfg s) = 0 <;> simp [createVMDisk, runGOVC, h, hd]
    · simp [Call.cmd, diskCfg]

theorem setNicStartConnected_emits (p : Provider) (s : Server) :
    Emits (setNicStartConnected p s) "device.connect" := by
  intro w
  refine ⟨[{ args := connectCfg s, status := p w.calls (connectCfg s) }], ?_, ?_⟩
  · by_cases h : p w.calls (connectCfg s) = 0 <;> simp [setNicStartConnected, runGOVC, h]
  · simp [Call.cmd, connectCfg]

theorem setIPAddress_emits (p : Provider) (s : Server) :
    Emits (setIPAddress p s) "vm.customize" := by
  intro w
  refine ⟨[{ args := netCfg s, status := p w.calls (netCfg s) }], ?_, ?_⟩
  · by_cases h : p w.calls (netCfg s) = 0 <;> simp [setIPAddress, runGOVC, h]
  · simp [Call.cmd, netCfg]

theorem powerOn_emits (p : Provider) (s : Server) : Emits (powerOn p s) "vm.power" := by
  intro w
  refine ⟨[{ args := pwrCmd s, status := p w.calls (pwrCmd s) }], ?_, ?_⟩
  · by_cases h : p w.calls (pwrCmd s) = 0 <;> simp [powerOn, runGOVC, h]
  · simp [Call.cmd, pwrCmd]

theorem pipeline_emits (p : Provider) (s : Server) :
    List.Forall₂ Emits (pipeline p s) stepCommands :=
  .cons (cloneVM_emits p s) (.cons (createVMDisk_emits p s)
    (.cons (setNicStartConnected_emits p s) (.cons (setIPAddress_emits p s)
      (.cons (powerOn_emits p s) .nil))))

/-- C1: when the steps before the `k`-th one (counted from 0 in the order `cloneVM`,
`createVMDisk`, `setNicStartConnected`, `setIPAddress`, `powerOn`) have succeeded and the
`k`-th one returns an error, `deployPackage` returns that very error in the world that step
left behind, so nothing is done after it; every call issued carries the command of one of
the steps up to the `k`-th, none that of a later step. -/
theorem deployPackage_fail_fast (p : Provider) (s : Server) (w : World) (k : Nat)
    (step : Action) (wk : World) (e : String) (w' : World)
    (hstep : (pipeline p s)[k]? = some step)
    (hpre : allSucceed ((pipeline p s).take k) w = some wk)
    (hfail : step wk = (some e, w')) :
    deployPackage p s w = (some e, w') ∧
    ∀ c ∈ issued w (deployPackage p s w).2, c.cmd ∈ stepCommands.take (k + 1) := by
  have hk : k < (pipeline p s).length := by
    rcases Nat.lt_or_ge k (pipeline p s).length with h | h
    · exact h
    · rw [List.getElem?_eq_none h] at hstep
      cases hstep
  have hsplit : pipeline p s = (pipeline p s).take k ++ step :: (pipeline p s).drop (k + 1) := by
    have hget : (pipeline p s)[k] = step := by
      rw [List.getElem?_eq_getElem hk] at hstep
      exact Option.some.inj hstep
    rw [← hget, ← List.drop_eq_getElem_cons hk, List.take_append_drop]
  have hres : deployPackage p s w = (some e, w') := by
    rw [deployPackage_eq_runSteps, hsplit, allSucceed_append _ _ w wk hpre]
    simp [runSteps, hfail]
  refine ⟨hres, ?_⟩
  rw [hres]
  have hcmd : ∃ cmd, stepCommands[k]? = some cmd ∧ Emits step cmd := by
    have h2 := pipeline_emits p s
    have hlen : k < stepCommands.length := by
      have := h2.length_eq
      omega
    refine ⟨stepCommands[k], List.getElem?_eq_getElem hlen, ?_⟩
    have := List.forall₂_iff_get.mp h2
    have h3 := this.2 k hk hlen
    simp only [List.get_eq_getElem] at h3
    rw [List.getElem?_eq_getElem hk] at hstep
    rw [← Option.some.inj hstep]
    exact h3
  obtain ⟨cmd, hcmdk, hem⟩ := hcmd
  obtain ⟨new1, h1, hc1⟩ :=
    allSucceed_emits (List.forall₂_take k (pipeline_emits p s)) w wk hpre
  obtain ⟨new2, h2, hc2⟩ := hem wk
  rw [hfail] at h2
  have h2' : w'.calls = wk.calls ++ new2 := h2
  have hiss : issued w w' = new1 ++ new2 :=
    issued_append _ _ _ (by rw [h2', h1, List.append_assoc])
  intro c hc
  rw [hiss] at hc
  have hlen : k < stepCommands.length := by
    have := (pipeline_emits p s).length_eq
    omega
  have htake : stepCommands.take (k + 1) = stepCommands.take k ++ [cmd] := by
    rw [List.take_succ, hcmdk]
    rfl
  rw [htake]
  rcases List.mem_append.mp hc with hc | hc
  · exact List.mem_append_left _ (hc1 c hc)
  · exact List.mem_append_right _ (by simp [hc2 c hc])

theorem deployPackage_fail_fast_witness :
    (deployPackage (failOn "vm.customize") (sampleServer "db01" 100) sampleWorld =
        (some "failed to set ip address of db01",
         (setIPAddress (failOn "vm.customize") (sampleServer "db01" 100) db01BeforeNetwork).2) ∧
      ∀ c ∈ issued sampleWorld
          (deployPackage (failOn "vm.customize") (sampleServer "db01" 100) sampleWorld).2,
        c.cmd ∈ stepCommands.take (3 + 1)) ∧
    (issued sampleWorld
        (deployPackage (failOn "vm.customize") (sampleServer "db01" 100) sampleWorld).2).map
      Call.cmd = ["vm.clone", "vm.disk.create", "device.connect", "vm.customize"] :=
  ⟨deployPackage_fail_fast (failOn "vm.customize") (sampleServer "db01" 100) sampleWorld 3
      (setIPAddress (failOn "vm.customize") (sampleServer "db01" 100)) db01BeforeNetwork
      "failed to set ip address of db01"
      (setIPAddress (failOn "vm.customize") (sampleServer "db01" 100) db01BeforeNetwork).2
      rfl (by decide) (by decide),
   by decide⟩

theorem vmCfg_cmd (s : Server) (w : World) (st : Int) :
    Call.cmd { args := vmCfg s w, status := st } = "vm.clone" := rfl

theorem diskCfg_cmd (s : Server) (st : Int) :
    Call.cmd { args := diskCfg s, status := st } = "vm.disk.create" := rfl

theorem connectCfg_cmd (s : Server) (st : Int) :
    Call.cmd { args := connectCfg s, status := st } = "device.connect" := rfl

theorem netCfg_cmd (s : Server) (st : Int) :
    Call.cmd { args := netCfg s, status := st } = "vm.customize" := rfl

theorem pwrCmd_cmd (s : Server) (st : Int) :
    Call.cmd { args := pwrCmd s, status := st } = "vm.power" := rfl

/-- C6: the commands `deployPackage` issues for one server form a prefix of
`vm.clone, vm.disk.create, device.connect, vm.customize, vm.power`; they are all five,
with result `nil`, exactly when the application-disk size is not zero and every call
issued returned status 0. -/
theorem deployPackage_linear (p : Provider) (s : Server) (w : World) :
    (deployPackage p s w).2.calls = w.calls ++ issued w (deployPackage p s w).2 ∧
    (issued w (deployPackage p s w).2).map Call.cmd <+: stepCommands ∧
    (((issued w (deployPackage p s w).2).map Call.cmd = stepCommands ∧
        (deployPackage p s w).1 = none) ↔
      (s.AppDiskGB ≠ 0 ∧ ∀ c ∈ issued w (deployPackage p s w).2, c.status = 0)) := by
  by_cases h1 : p w.calls (vmCfg s w) = 0
  swap
  · simp [deployPackage, cloneVM, runGOVC, h1, issued, vmCfg_cmd, stepCommands]
  by_cases hd : s.AppDiskGB = 0
  · simp [deployPackage, cloneVM, createVMDisk, runGOVC, h1, hd, issued, vmCfg_cmd, stepCommands]
  by_cases h2 : p (w.calls ++ [{ args := vmCfg s w, status := 0 }]) (diskCfg s) = 0
  swap
  · simp [deployPackage, cloneVM, createVMDisk, runGOVC, h1, hd, h2, issued, vmCfg_cmd,
      diskCfg_cmd, stepCommands]
  by_cases h3 : p (w.calls ++ [{ args := vmCfg s w, status := 0 },
      { args := diskCfg s, status := 0 }]) (connectCfg s) = 0
  swap
  · simp [deployPackage, cloneVM, createVMDisk, setNicStartConnected, runGOVC, h1, hd, h2, h3,
      issued, vmCfg_cmd, diskCfg_cmd, connectCfg_cmd, stepCommands]
  by_cases h4 : p (w.calls ++ [{ args := vmCfg s w, status := 0 },
      { args := diskCfg s, status := 0 }, { args := connectCfg s, status := 0 }]) (netCfg s) = 0
  swap
  · simp [deployPackage, cloneVM, createVMDisk, setNicStartConnected, setIPAddress, runGOVC,
      h1, hd, h2, h3, h4, issued, vmCfg_cmd, diskCfg_cmd, connectCfg_cmd, netCfg_cmd,
      stepCommands]
  by_cases h5 : p (w.calls ++ [{ args := vmCfg s w, status := 0 },
      { args := diskCfg s, status := 0 }, { args := connectCfg s, status := 0 },
      { args := netCfg s, status := 0 }]) (pwrCmd s) = 0
  · simp [deployPackage, cloneVM, createVMDisk, setNicStartConnected, setIPAddress, powerOn,
      runGOVC, h1, hd, h2, h3, h4, h5, issued, vmCfg_cmd, diskCfg_cmd, connectCfg_cmd,
      netCfg_cmd, pwrCmd_cmd, stepCommands]
  · simp [deployPackage, cloneVM, createVMDisk, setNicStartConnected, setIPAddress, powerOn,
      runGOVC, h1, hd, h2, h3, h4, h5, issued, vmCfg_cmd, diskCfg_cmd, connectCfg_cmd,
      netCfg_cmd, pwrCmd_cmd, stepCommands]

/-! ## Error texts -/

theorem failedStep_clone (n : String) :
    failedStep ("failed to create virtual machine " ++ n) = some 0 := by
  simp [failedStep, String.data_append]

theorem failedStep_config :
    failedStep "appDisk not specified in configuration file" = some 1 := by
  decide

theorem failedStep_disk (n : String) :
    failedStep ("failed to create disk for virtual machine " ++ n) = some 1 := by
  simp [failedStep, String.data_append, String.ext_iff]

theorem failedStep_connect (n : String) :
    failedStep ("failed to set vmxnet3 adapter to start connected on virtual machine " ++ n) =
      some 2 := by
  simp [failedStep, String.data_append, String.ext_iff]

theorem failedStep_network (n : String) :
    failedStep ("failed to set ip address of " ++ n) = some 3 := by
  simp [failedStep, String.data_append, String.ext_iff]

theorem failedStep_power (n : String) :
    failedStep ("failed to power on " ++ n) = some 4 := by
  simp [failedStep, String.data_append, String.ext_iff]

theorem occursIn_append (pre n : String) : occursIn n (pre ++ n) := by
  unfold occursIn
  rw [String.data_append]
  exact (List.suffix_append _ _).isInfix

theorem name_suffix_append (pre n : String) : n.data <:+ (pre ++ n).data := by
  rw [String.data_append]
  exact List.suffix_append _ _

/-- What the error texts of `deployPackage` carry: the text identifies the step that
failed (`failedStep`, which sees the text alone, gives the index of the step that returned
it).  When that step made a provider call, the call had a non-zero status and the text ends
with (so contains) the server's name; the only other error is `createVMDisk` refusing a
zero disk size without any call, with the fixed text
`appDisk not specified in configuration file`. -/
theorem deployPackage_error_text (p : Provider) (s : Server) (w : World) (e : String)
    (w' : World) (h : deployPackage p s w = (some e, w')) :
    ∃ (k : Nat) (step : Action) (wk : World),
      (pipeline p s)[k]? = some step ∧
      allSucceed ((pipeline p s).take k) w = some wk ∧
      step wk = (some e, w') ∧
      failedStep e = some k ∧
      ((issued wk w' = [] ∧ k = 1 ∧ s.AppDiskGB = 0 ∧
          e = "appDisk not specified in configuration file") ∨
       ((∃ c, issued wk w' = [c] ∧ c.status ≠ 0) ∧
          s.Name.data <:+ e.data ∧ occursIn s.Name e)) := by
  by_cases h1 : p w.calls (vmCfg s w) = 0
  swap
  · simp [deployPackage, cloneVM, runGOVC, h1] at h
    obtain ⟨rfl, rfl⟩ := h
    refine ⟨0, cloneVM p s, w, rfl, rfl, by simp [cloneVM, runGOVC, h1], failedStep_clone _,
      Or.inr ⟨⟨_, issued_append _ _ _ rfl, h1⟩, name_suffix_append _ _, occursIn_append _ _⟩⟩
  by_cases hd : s.AppDiskGB = 0
  · simp [deployPackage, cloneVM, createVMDisk, runGOVC, h1, hd] at h
    obtain ⟨rfl, rfl⟩ := h
    refine ⟨1, createVMDisk p s, _, rfl, ?_, by simp [createVMDisk, hd], failedStep_config,
      Or.inl ⟨issued_self _, rfl, hd, rfl⟩⟩
    simp [pipeline, allSucceed, cloneVM, runGOVC, h1]
  by_cases h2 : p (w.calls ++ [{ args := vmCfg s w, status := 0 }]) (diskCfg s) = 0
  swap
  · simp [deployPackage, cloneVM, createVMDisk, runGOVC, h1, hd, h2] at h
    obtain ⟨rfl, rfl⟩ := h
    refine ⟨1, createVMDisk p s,
      { w with calls := w.calls ++ [{ args := vmCfg s w, status := 0 }] }, rfl, ?_,
      by simp [createVMDisk, runGOVC, hd, h2], failedStep_disk _,
      Or.inr ⟨⟨⟨diskCfg s, _⟩, issued_append _ _ _ (by simp), h2⟩, name_suffix_append _ _,
        occursIn_append _ _⟩⟩
    simp [pipeline, allSucceed, cloneVM, runGOVC, h1]
  by_cases h3 : p (w.calls ++ [{ args := vmCfg s w, status := 0 },
      { args := diskCfg s, status := 0 }]) (connectCfg s) = 0
  swap
  · simp [deployPackage, cloneVM, createVMDisk, setNicStartConnected, runGOVC, h1, hd, h2,
      h3] at h
    obtain ⟨rfl, rfl⟩ := h
    refine ⟨2, setNicStartConnected p s,
      { w with calls := w.calls ++ [{ args := vmCfg s w, status := 0 },
        { args := diskCfg s, status := 0 }] }, rfl, ?_,
      by simp [setNicStartConnected, runGOVC, h3], failedStep_connect _,
      Or.inr ⟨⟨⟨connectCfg s, _⟩, issued_append _ _ _ (by simp), h3⟩, name_suffix_append _ _,
        occursIn_append _ _⟩⟩
    simp [pipeline, allSucceed, cloneVM, createVMDisk, runGOVC, h1, hd, h2]
  by_cases h4 : p (w.calls ++ [{ args := vmCfg s w, status := 0 },
      { args := diskCfg s, status := 0 }, { args := connectCfg s, status := 0 }]) (netCfg s) = 0
  swap
  · simp [deployPackage, cloneVM, createVMDisk, setNicStartConnected, setIPAddress, runGOVC,
      h1, hd, h2, h3, h4] at h
    obtain ⟨rfl, rfl⟩ := h
    refine ⟨3, setIPAddress p s,
      { w with calls := w.calls ++ [{ args := vmCfg s w, status := 0 },
        { args := diskCfg s, status := 0 }, { args := connectCfg s, status := 0 }] }, rfl, ?_,
      by simp [setIPAddress, runGOVC, h4], failedStep_network _,
      Or.inr ⟨⟨⟨netCfg s, _⟩, issued_append _ _ _ (by simp), h4⟩, name_suffix_append _ _,
        occursIn_append _ _⟩⟩
    simp [pipeline, allSucceed, cloneVM, createVMDisk, setNicStartConnected, runGOVC, h1, hd,
      h2, h3]
  by_cases h5 : p (w.calls ++ [{ args := vmCfg s w, status := 0 },
      { args := diskCfg s, status := 0 }, { args := connectCfg s, status := 0 },
      { args := netCfg s, status := 0 }]) (pwrCmd s) = 0
  · simp [deployPackage, cloneVM, createVMDisk, setNicStartConnected, setIPAddress, powerOn,
      runGOVC, h1, hd, h2, h3, h4, h5] at h
  · simp [deployPackage, cloneVM, createVMDisk, setNicStartConnected, setIPAddress, powerOn,
      runGOVC, h1, hd, h2, h3, h4, h5] at h
    obtain ⟨rfl, rfl⟩ := h
    refine ⟨4, powerOn p s,
      { w with calls := w.calls ++ [{ args := vmCfg s w, status := 0 },
        { args := diskCfg s, status := 0 }, { args := connectCfg s, status := 0 },
        { args := netCfg s, status := 0 }] }, rfl, ?_,
      by simp [powerOn, runGOVC, h5], failedStep_power _,
      Or.inr ⟨⟨⟨pwrCmd s, _⟩, issued_append _ _ _ (by simp), h5⟩, name_suffix_append _ _,
        occursIn_append _ _⟩⟩
    simp [pipeline, allSucceed, cloneVM, createVMDisk, setNicStartConnected, setIPAddress,
      runGOVC, h1, hd, h2, h3, h4]

theorem deployPackage_error_text_witness :
    deployPackage (failOn "vm.customize") (sampleServer "db01" 100) sampleWorld =
        (some "failed to set ip address of db01",
         (setIPAddress (failOn "vm.customize") (sampleServer "db01" 100) db01BeforeNetwork).2) ∧
    ∃ (k : Nat) (step : Action) (wk : World),
      (pipeline (failOn "vm.customize") (sampleServer "db01" 100))[k]? = some step ∧
      allSucceed ((pipeline (failOn "vm.customize") (sampleServer "db01" 100)).take k)
        sampleWorld = some wk ∧
      step wk = (some "failed to set ip address of db01",
         (setIPAddress (failOn "vm.customize") (sampleServer "db01" 100) db01BeforeNetwork).2) ∧
      failedStep "failed to set ip address of db01" = some k ∧
      ((issued wk
          (setIPAddress (failOn "vm.customize") (sampleServer "db01" 100) db01BeforeNetwork).2
            = [] ∧ k = 1 ∧ (sampleServer "db01" 100).AppDiskGB = 0 ∧
          "failed to set ip address of db01" = "appDisk not specified in configuration file") ∨
       ((∃ c, issued wk
          (setIPAddress (failOn "vm.customize") (sampleServer "db01" 100) db01BeforeNetwork).2
            = [c] ∧ c.status ≠ 0) ∧
          (sampleServer "db01" 100).Name.data <:+ "failed to set ip address of db01".data ∧
          occursIn (sampleServer "db01" 100).Name "failed to set ip address of db01")) :=
  ⟨by decide,
   deployPackage_error_text (failOn "vm.customize") (sampleServer "db01" 100) sampleWorld
     "failed to set ip address of db01"
     (setIPAddress (failOn "vm.customize") (sampleServer "db01" 100) db01BeforeNetwork).2
     (by decide)⟩

/-- C7, evaluated where it fails: for the server `web02` with disk size 0 `deployPackage`
returns `appDisk not specified in configuration file`, the one error text of the six that
does not carry the server's name: the name `web02` does not occur in it. -/
theorem deployPackage_config_error_lacks_name :
    deployPackage okProvider (sampleServer "web02" 0) sampleWorld =
      (some "appDisk not specified in configuration file",
       (cloneVM okProvider (sampleServer "web02" 0) sampleWorld).2) ∧
    ¬ occursIn (sampleServer "web02" 0).Name "appDisk not specified in configuration file" := by
  decide

/-! ## The server loop -/

theorem Extends.refl (w : World) : Extends w w :=
  ⟨rfl, [], by simp⟩

theorem Extends.trans {w1 w2 w3 : World} (h12 : Extends w1 w2) (h23 : Extends w2 w3) :
    Extends w1 w3 := by
  obtain ⟨e12, n12, c12⟩ := h12
  obtain ⟨e23, n23, c23⟩ := h23
  exact ⟨e23.trans e12, n12 ++ n23, by rw [c23, c12, List.append_assoc]⟩

theorem vmCfg_of_env (s : Server) {w w' : World} (h : w'.env = w.env) :
    vmCfg s w' = vmCfg s w := by
  simp [vmCfg, getenv, h]

theorem attempted_of_extends_left {w w1 w2 : World} {s : Server} (h01 : Extends w w1)
    (h12 : Extends w1 w2) (h : attempted w1 w2 s) : attempted w w2 s := by
  obtain ⟨e01, n01, c01⟩ := h01
  obtain ⟨_, n12, c12⟩ := h12
  obtain ⟨c, hc, hargs⟩ := h
  rw [issued_append w1 w2 n12 c12] at hc
  refine ⟨c, ?_, by rw [hargs, vmCfg_of_env s e01]⟩
  rw [issued_append w w2 (n01 ++ n12) (by rw [c12, c01, List.append_assoc])]
  exact List.mem_append_right _ hc

theorem attempted_of_extends_right {w w1 w2 : World} {s : Server} (h01 : Extends w w1)
    (h12 : Extends w1 w2) (h : attempted w w1 s) : attempted w w2 s := by
  obtain ⟨_, n01, c01⟩ := h01
  obtain ⟨_, n12, c12⟩ := h12
  obtain ⟨c, hc, hargs⟩ := h
  rw [issued_append w w1 n01 c01] at hc
  refine ⟨c, ?_, hargs⟩
  rw [issued_append w w2 (n01 ++ n12) (by rw [c12, c01, List.append_assoc])]
  exact List.mem_append_left _ hc

theorem cloneVM_world (p : Provider) (s : Server) (w : World) :
    (cloneVM p s w).2 =
      { w with calls := w.calls ++ [{ args := vmCfg s w, status := p w.calls (vmCfg s w) }] } := by
  by_cases h : p w.calls (vmCfg s w) = 0 <;> simp [cloneVM, runGOVC, h]

theorem cloneVM_frames (p : Provider) (s : Server) : Frames (cloneVM p s) :=
  fun w => ⟨_, cloneVM_world p s w⟩

theorem createVMDisk_frames (p : Provider) (s : Server) : Frames (createVMDisk p s) := by
  intro w
  by_cases hd : s.AppDiskGB = 0
  · exact ⟨[], by simp [createVMDisk, hd]⟩
  · refine ⟨[{ args := diskCfg s, status := p w.calls (diskCfg s) }], ?_⟩
    by_cases h : p w.calls (diskCfg s) = 0 <;> simp [createVMDisk, runGOVC, h, hd]

theorem setNicStartConnected_frames (p : Provider) (s : Server) :
    Frames (setNicStartConnected p s) := by
  intro w
  refine ⟨[{ args := connectCfg s, status := p w.calls (connectCfg s) }], ?_⟩
  by_cases h : p w.calls (connectCfg s) = 0 <;> simp [setNicStartConnected, runGOVC, h]

theorem setIPAddress_frames (p : Provider) (s : Server) : Frames (setIPAddress p s) := by
  intro w
  refine ⟨[{ args := netCfg s, status := p w.calls (netCfg s) }], ?_⟩
  by_cases h : p w.calls (netCfg s) = 0 <;> simp [setIPAddress, runGOVC, h]

theorem powerOn_frames (p : Provider) (s : Server) : Frames (powerOn p s) := by
  intro w
  refine ⟨[{ args := pwrCmd s, status := p w.calls (pwrCmd s) }], ?_⟩
  by_cases h : p w.calls (pwrCmd s) = 0 <;> simp [powerOn, runGOVC, h]

theorem runSteps_frames (steps : List Action) (h : ∀ f ∈ steps, Frames f) :
    Frames (runSteps steps) := by
  induction steps with
  | nil => exact fun w => ⟨[], by simp [runSteps]⟩
  | cons f fs ih =>
    intro w
    obtain ⟨new1, h1⟩ := h f (List.mem_cons_self _ _) w
    rcases hf : f w with ⟨_ | e, w1⟩
    · obtain ⟨new2, h2⟩ := ih (fun g hg => h g (List.mem_cons_of_mem _ hg)) w1
      rw [hf] at h1
      have h1' : w1 = { w with calls := w.calls ++ new1 } := h1
      refine ⟨new1 ++ new2, ?_⟩
      simp only [runSteps, hf]
      rw [h2, h1']
      simp
    · rw [hf] at h1
      exact ⟨new1, by simp only [runSteps, hf]; exact h1⟩

theorem deployPackage_world (p : Provider) (s : Server) (w : World) :
    ∃ st rest, (deployPackage p s w).2 =
      { w with calls := w.calls ++ { args := vmCfg s w, status := st } :: rest } := by
  have hc := cloneVM_world p s w
  rw [deployPackage_eq_runSteps]
  simp only [pipeline, runSteps]
  rcases hf : cloneVM p s w with ⟨_ | e, w1⟩
  · rw [hf] at hc
    have hc' : w1 = { w with calls := w.calls ++
        [{ args := vmCfg s w, status := p w.calls (vmCfg s w) }] } := hc
    obtain ⟨new, hnew⟩ := runSteps_frames
      [createVMDisk p s, setNicStartConnected p s, setIPAddress p s, powerOn p s]
      (by
        intro f hf
        simp only [List.mem_cons, List.mem_singleton, List.not_mem_nil, or_false] at hf
        rcases hf with rfl | rfl | rfl | rfl
        · exact createVMDisk_frames p s
        · exact setNicStartConnected_frames p s
        · exact setIPAddress_frames p s
        · exact powerOn_frames p s) w1
    refine ⟨p w.calls (vmCfg s w), new, ?_⟩
    simp only [runSteps] at hnew
    simp only []
    rw [hnew, hc']
    simp
  · rw [hf] at hc
    exact ⟨p w.calls (vmCfg s w), [], hc⟩

theorem deployPackage_extends (p : Provider) (s : Server) (w : World) :
    Extends w (deployPackage p s w).2 ∧ attempted w (deployPackage p s w).2 s := by
  obtain ⟨st, rest, h⟩ := deployPackage_world p s w
  rw [h]
  refine ⟨⟨rfl, _, rfl⟩, { args := vmCfg s w, status := st }, ?_, rfl⟩
  rw [issued_append w _ _ rfl]
  exact List.mem_cons_self _ _

theorem eprintln_extends (e : String) (w : World) : Extends w (eprintln e w) :=
  ⟨rfl, [], by simp [eprintln]⟩

theorem deployPackageLogged_extends (p : Provider) (s : Server) (w : World) :
    Extends w (deployPackageLogged p s w) := by
  have h := (deployPackage_extends p s w).1
  unfold deployPackageLogged
  rcases hf : deployPackage p s w with ⟨_ | e, w1⟩
  · rw [hf] at h
    exact h
  · rw [hf] at h
    exact h.trans (eprintln_extends e w1)

theorem deployLoop_extends (p : Provider) (srvs : List Server) (w : World) :
    Extends w (deployLoop p srvs w).2 := by
  induction srvs generalizing w with
  | nil => exact Extends.refl w
  | cons srv rest ih =>
    have h := (deployPackage_extends p srv w).1
    simp only [deployLoop]
    rcases hf : deployPackage p srv w with ⟨_ | e, w1⟩
    · rw [hf] at h
      exact ((h.trans (deployPackageLogged_extends p srv w1)).trans
        (deployPackageLogged_extends p srv _)).trans (ih _)
    · rw [hf] at h
      exact h.trans (eprintln_extends e w1)

theorem deployLoop_cons_ok (p : Provider) (a : Server) (rest : List Server) (w w1 : World)
    (h : deployPackage p a w = (none, w1)) :
    deployLoop p (a :: rest) w =
      deployLoop p rest (deployPackageLogged p a (deployPackageLogged p a w1)) := by
  simp [deployLoop, h]

theorem deployLoop_cons_err (p : Provider) (a : Server) (rest : List Server) (w w1 : World)
    (e : String) (h : deployPackage p a w = (some e, w1)) :
    deployLoop p (a :: rest) w = (some 1, eprintln e w1) := by
  simp [deployLoop, h]

theorem deployLoop_fails_after (p : Provider) (pre : List Server) (s : Server) (w wk : World)
    (e : String) (w' : World) (hpre : deployLoop p pre w = (none, wk))
    (hfail : deployPackage p s wk = (some e, w')) (post : List Server) :
    deployLoop p (pre ++ s :: post) w = (some 1, eprintln e w') := by
  induction pre generalizing w with
  | nil =>
    simp only [deployLoop, Prod.mk.injEq, true_and] at hpre
    subst hpre
    exact deployLoop_cons_err p s post w w' e hfail
  | cons a pre ih =>
    rcases hf : deployPackage p a w with ⟨_ | e1, w1⟩
    · rw [deployLoop_cons_ok p a pre w w1 hf] at hpre
      rw [List.cons_append, deployLoop_cons_ok p a _ w w1 hf]
      exact ih _ hpre
    · rw [deployLoop_cons_err p a pre w w1 e1 hf] at hpre
      simp at hpre

theorem deployLoop_append (p : Provider) (xs ys : List Server) (w : World) :
    deployLoop p (xs ++ ys) w =
      match deployLoop p xs w with
      | (some c, w1) => (some c, w1)
      | (none, w1) => deployLoop p ys w1 := by
  induction xs generalizing w with
  | nil => simp [deployLoop]
  | cons a xs ih =>
    rcases hf : deployPackage p a w with ⟨_ | e, w1⟩
    · rw [List.cons_append, deployLoop_cons_ok p a _ w w1 hf, deployLoop_cons_ok p a _ w w1 hf]
      exact ih _
    · rw [List.cons_append, deployLoop_cons_err p a _ w w1 e hf,
        deployLoop_cons_err p a _ w w1 e hf]

theorem deployLoop_first_calls_ok (p : Provider) (srvs : List Server) (w : World)
    (h : (deployLoop p srvs w).1 = none) (pre : List Server) (s : Server) (post : List Server)
    (hsplit : srvs = pre ++ s :: post) :
    ∃ wk, deployLoop p pre w = (none, wk) ∧ (deployPackage p s wk).1 = none := by
  subst hsplit
  rcases hpre : deployLoop p pre w with ⟨_ | c, wk⟩
  · refine ⟨wk, rfl, ?_⟩
    rcases hs : deployPackage p s wk with ⟨_ | e, w'⟩
    · rfl
    · rw [deployLoop_fails_after p pre s w wk e w' hpre hs post] at h
      simp at h
  · rw [deployLoop_append, hpre] at h
    simp at h

theorem deployLoop_attempts_prefix (p : Provider) (srvs : List Server) (w : World) :
    ∃ n, n ≤ srvs.length ∧
      (∀ t ∈ srvs.take n, attempted w (deployLoop p srvs w).2 t) ∧
      (((deployLoop p srvs w).1 = none ∧ n = srvs.length) ∨
       ∃ (pre : List Server) (s : Server) (wk : World) (e : String) (w' : World),
         srvs.take n = pre ++ [s] ∧
         deployLoop p pre w = (none, wk) ∧
         deployPackage p s wk = (some e, w') ∧
         deployLoop p srvs w = (some 1, eprintln e w') ∧
         ∀ post, deployLoop p (pre ++ s :: post) w = (some 1, eprintln e w')) := by
  induction srvs generalizing w with
  | nil => exact ⟨0, le_rfl, by simp, Or.inl ⟨rfl, rfl⟩⟩
  | cons a rest ih =>
    have hext := deployPackage_extends p a w
    rcases hf : deployPackage p a w with ⟨_ | e, w1⟩
    · rw [hf] at hext
      have h3 : Extends w (deployPackageLogged p a (deployPackageLogged p a w1)) :=
        (hext.1.trans (deployPackageLogged_extends p a w1)).trans
          (deployPackageLogged_extends p a _)
      have h13 : Extends w1 (deployPackageLogged p a (deployPackageLogged p a w1)) :=
        (deployPackageLogged_extends p a w1).trans (deployPackageLogged_extends p a _)
      obtain ⟨n, hn, hatt, hdisj⟩ :=
        ih (deployPackageLogged p a (deployPackageLogged p a w1))
      have hfin := deployLoop_extends p rest (deployPackageLogged p a (deployPackageLogged p a w1))
      refine ⟨n + 1, by simpa using hn, ?_, ?_⟩
      · intro t ht
        rw [deployLoop_cons_ok p a rest w w1 hf]
        rw [List.take_succ_cons, List.mem_cons] at ht
        rcases ht with rfl | ht
        · exact attempted_of_extends_right hext.1 (h13.trans hfin) hext.2
        · exact attempted_of_extends_left h3 hfin (hatt t ht)
      · rw [deployLoop_cons_ok p a rest w w1 hf]
        rcases hdisj with ⟨hnone, hlen⟩ | ⟨pre, s, wk, e, w', htake, hpre, hfail, hres, hpost⟩
        · exact Or.inl ⟨hnone, by simp [hlen]⟩
        · refine Or.inr ⟨a :: pre, s, wk, e, w', by simp [htake], ?_, hfail, hres, ?_⟩
          · rw [deployLoop_cons_ok p a pre w w1 hf]
            exact hpre
          · intro post
            rw [List.cons_append, deployLoop_cons_ok p a _ w w1 hf]
            exact hpost post
    · rw [hf] at hext
      refine ⟨1, by simp, ?_, Or.inr ⟨[], a, w, e, w1, by simp, rfl, hf,
        deployLoop_cons_err p a rest w w1 e hf,
        fun post => deployLoop_cons_err p a post w w1 e hf⟩⟩
      intro t ht
      rw [deployLoop_cons_err p a rest w w1 e hf]
      simp only [List.take_succ_cons, List.take_zero, List.mem_singleton] at ht
      subst ht
      exact attempted_of_extends_right hext.1 (eprintln_extends e w1) hext.2

/-- C3 (as amended): the loop takes the servers in list order and attempts the first `n`
of them.  Either `n` is the whole list, the loop runs to its end, and the first
`deployPackage` call of every server returned `nil`; or the `n`-th server is the first one
whose first `deployPackage` call returns an error (the first call of every server before
it returned `nil`): then that error is written to standard error, the process exits with
status 1, and the outcome and all effects are the same whatever servers follow in the
list, which are not attempted. -/
theorem deployLoop_stops_at_first_failure (p : Provider) (srvs : List Server) (w : World) :
    ∃ n, n ≤ srvs.length ∧
      (∀ t ∈ srvs.take n, attempted w (deployLoop p srvs w).2 t) ∧
      (((deployLoop p srvs w).1 = none ∧ n = srvs.length ∧
          ∀ (pre : List Server) (s : Server) (post : List Server), srvs = pre ++ s :: post →
            ∃ wk, deployLoop p pre w = (none, wk) ∧ (deployPackage p s wk).1 = none) ∨
       ∃ (pre : List Server) (s : Server) (wk : World) (e : String) (w' : World),
         srvs.take n = pre ++ [s] ∧
         deployLoop p pre w = (none, wk) ∧
         (∀ (pre1 : List Server) (t : Server) (post1 : List Server), pre = pre1 ++ t :: post1 →
            ∃ wj, deployLoop p pre1 w = (none, wj) ∧ (deployPackage p t wj).1 = none) ∧
         deployPackage p s wk = (some e, w') ∧
         deployLoop p srvs w = (some 1, eprintln e w') ∧
         ∀ post, deployLoop p (pre ++ s :: post) w = (some 1, eprintln e w')) := by
  obtain ⟨n, hn, hatt, hdisj⟩ := deployLoop_attempts_prefix p srvs w
  refine ⟨n, hn, hatt, ?_⟩
  rcases hdisj with ⟨hnone, hlen⟩ | ⟨pre, s, wk, e, w', htake, hpre, hfail, hres, hpost⟩
  · exact Or.inl ⟨hnone, hlen, deployLoop_first_calls_ok p srvs w hnone⟩
  · exact Or.inr ⟨pre, s, wk, e, w', htake, hpre,
      deployLoop_first_calls_ok p pre w (by rw [hpre]), hfail, hres, hpost⟩

/-- C3 fails as stated: of the two servers `web01`, `web02`, with a provider that fails
the calls for `web01` only, the loop exits at `web01`; `web02`, which the provider would
have served, is never attempted, and no success is reported for it. -/
theorem deployLoop_abandons_later_servers :
    deployLoop (failFor "web01") [sampleServer "web01" 50, sampleServer "web02" 50] sampleWorld =
      (some 1,
       eprintln "failed to create virtual machine web01"
         (cloneVM (failFor "web01") (sampleServer "web01" 50) sampleWorld).2) ∧
    (deployPackage (failFor "web01") (sampleServer "web02" 50) sampleWorld).1 = none ∧
    ¬ ∀ t ∈ [sampleServer "web01" 50, sampleServer "web02" 50],
        attempted sampleWorld
          (deployLoop (failFor "web01") [sampleServer "web01" 50, sampleServer "web02" 50]
            sampleWorld).2 t := by
  decide

/-- C4, evaluated where it fails: one server and a provider that refuses a second clone of
the same machine.  The first pass succeeds, the second and the third each fail at
`vm.clone` and their errors are written to standard error, yet the loop runs to its end
and the exit status is 0. -/
theorem deployLoop_exit_zero_with_errors :
    (deployLoop noDuplicateClone [sampleServer "web01" 50] sampleWorld).1 = none ∧
    exitStatus (deployLoop noDuplicateClone [sampleServer "web01" 50] sampleWorld).1 = 0 ∧
    (deployLoop noDuplicateClone [sampleServer "web01" 50] sampleWorld).2.stderr =
      ["failed to create virtual machine web01\n", "failed to create virtual machine web01\n"] := by
  decide

/-- C5, evaluated where it fails: for one server and a provider that always succeeds the
loop issues the five commands three times over, each of them three times. -/
theorem deployLoop_runs_pipeline_three_times :
    (deployLoop okProvider [sampleServer "web01" 50] sampleWorld).2.calls.map Call.cmd =
      stepCommands ++ stepCommands ++ stepCommands ∧
    ∀ cmd ∈ stepCommands,
      ((deployLoop okProvider [sampleServer "web01" 50] sampleWorld).2.calls.filter
        (fun c => c.cmd = cmd ∧ "web01" ∈ c.args)).length = 3 := by
  decide

/-- C10, evaluated where it fails: the name `é` is two bytes and one code point, the width
is 10, and the host is indented by nine spaces instead of eight. -/
theorem generateAnsibleInv_multibyte_name :
    len "é" = 2 ∧ "é".length = 1 ∧
    generateAnsibleInv [sampleServer "é" 50] =
      "---\nall:\n  children:\n    generated:\n      hosts:\n         é:" ∧
    generateAnsibleInv [sampleServer "é" 50] ≠ inventoryIndentedBy8 [sampleServer "é" 50] := by
  decide

/-! ## Supporting facts: the environment and names made of ASCII characters -/

theorem utf8ByteSize_go_ascii (cs : List Char) (h : ∀ c ∈ cs, c.val ≤ 127) :
    String.utf8ByteSize.go cs = cs.length := by
  induction cs with
  | nil => rfl
  | cons c cs ih =>
    have hc : c.val ≤ 127 := h c (List.mem_cons_self _ _)
    have hsz : c.utf8Size = 1 := by
      simp [Char.utf8Size, hc]
    simp only [String.utf8ByteSize.go, List.length_cons]
    rw [ih (fun d hd => h d (List.mem_cons_of_mem _ hd)), hsz]

theorem len_ascii (s : String) (h : ∀ c ∈ s.data, c.val ≤ 127) : len s = (s.length : Int) := by
  cases s with
  | mk cs =>
    simp only [len, String.utf8ByteSize, String.length]
    rw [utf8ByteSize_go_ascii cs h]

theorem sprintfHostLine_ascii (s : String) (h : ∀ c ∈ s.data, c.val ≤ 127)
    (hlen : s.length ≤ 999992) :
    sprintfHostLine (8 + len s) s = "\n" ++ "        " ++ s ++ ":" := by
  rw [len_ascii s h]
  have h1 : tooLarge (8 + (s.length : Int)) = false := by
    simp [tooLarge]
    omega
  have h2 : (8 + (s.length : Int)).natAbs = 8 + s.length := by omega
  have h3 : ¬ ((8 : Int) + (s.length : Int) < 0) := by omega
  simp only [sprintfHostLine, h1, h2, h3, padString]
  have h4 : ((8 + s.length : Nat) : Int) - (s.length : Int) = 8 := by push_cast; omega
  rw [h4]
  simp
  rfl

theorem generateAnsibleInv_ascii (servers : List Server)
    (h : ∀ s ∈ servers, (∀ c ∈ s.Name.data, c.val ≤ 127) ∧ s.Name.length ≤ 999992) :
    generateAnsibleInv servers = inventoryIndentedBy8 servers := by
  unfold generateAnsibleInv inventoryIndentedBy8
  generalize inventoryHeader = acc
  induction servers generalizing acc with
  | nil => rfl
  | cons s rest ih =>
    simp only [List.foldl_cons]
    rw [sprintfHostLine_ascii s.Name (h s (List.mem_cons_self _ _)).1
      (h s (List.mem_cons_self _ _)).2]
    rw [ih (fun t ht => h t (List.mem_cons_of_mem _ ht))]
    simp [String.append_assoc]

theorem setupEnvironment_getenv (vc : VCenter) (w0 w : World)
    (h : setupEnvironment (.ok vc) w0 = (none, w)) :
    getenv w "GOVC_TEMPLATE" = vc.Template ∧ getenv w "GOVC_NETWORK" = vc.Network := by
  simp only [setupEnvironment, List.foldl, setenv] at h
  split_ifs at h <;> simp at h
  subst h
  simp [getenv, List.find?, List.filter]

theorem deployCmdRun_loop (p : Provider) (vc : VCenter) (srvs : List Server) (w w1 : World)
    (h : setupEnvironment (.ok vc) (println "Setting up environment variables..." w) =
      (none, w1)) :
    deployCmdRun p (.ok vc) (.ok srvs) w =
      deployLoop p srvs (println "Unmarshaling server structures..." w1) := by
  simp [deployCmdRun, h]

theorem setenv_calls (key value : String) (w : World) :
    (setenv key value w).2.calls = w.calls := by
  unfold setenv
  split <;> rfl

theorem setupEnvironment_calls (vc : Except String VCenter) (w : World) :
    (setupEnvironment vc w).2.calls = w.calls := by
  cases vc with
  | error e => rfl
  | ok v =>
    have key : ∀ (l : List (String × String)) (acc : Option String × World),
        (l.foldl
          (fun acc kv =>
            match acc with
            | (some e, w1) => (some e, w1)
            | (none, w1) => setenv kv.1 kv.2 w1) acc).2.calls = acc.2.calls := by
      intro l
      induction l with
      | nil => intro acc; rfl
      | cons kv l ih =>
        intro acc
        rw [List.foldl_cons, ih]
        rcases acc with ⟨_ | e, w1⟩
        · exact setenv_calls kv.1 kv.2 w1
        · rfl
    exact key _ (none, w)

theorem deployCmdRun_unmarshal_error (p : Provider) (vc : Except String VCenter)
    (err : String) (w : World) :
    (deployCmdRun p vc (.error err) w).1 = some 1 ∧
    (deployCmdRun p vc (.error err) w).2.calls = w.calls := by
  have hc := setupEnvironment_calls vc (println "Setting up environment variables..." w)
  rcases hs : setupEnvironment vc (println "Setting up environment variables..." w) with
    ⟨_ | e, w1⟩
  · rw [hs] at hc
    have hc' : w1.calls = w.calls := hc
    simp only [deployCmdRun, hs]
    exact ⟨trivial, hc'⟩
  · rw [hs] at hc
    have hc' : w1.calls = w.calls := hc
    simp only [deployCmdRun, hs]
    exact ⟨trivial, hc'⟩

end Sdvi
